import Mathlib

/- Verification of the Dual-Provider Response Orchestrator (Deepthink backend).

   Shallow embedding of the TypeScript sources:
   - utils/responseUtils.ts       : mergeResponses, streamMergedResponses
   - lib/store.ts                 : requestStore, responseCache (node-cache semantics)
   - routes/ask.ts                : askRouter.post("/") handler
   - routes/askRoutes.ts          : askRouter.post("/chat") handler
   - middleware/authMiddleware.ts : checkQuota
   - services/openaiService.ts    : getOpenAIResponse retry options
   - services/deepseekService.ts  : getDeepSeekResponse retry options, trackUsage
   - services/websocketService.ts : WebSocketService.handleChatMessage hybrid branch

   Strings are embedded as Lean Strings; JS template-literal stringification of
   the numeric request fields is embedded by carrying the decimal string images
   directly (that stringification is injective on JS numbers).
-/

namespace Deepthink

/-! ## String helper lemmas -/

theorem strLength_append (s t : String) : (s ++ t).length = s.length + t.length := by
  show (s ++ t).data.length = s.data.length + t.data.length
  rw [String.data_append, List.length_append]

theorem strEmpty_of_length_zero {s : String} (h : s.length = 0) : s = "" := by
  apply String.ext
  have h2 : s.data.length = 0 := h
  simpa using List.length_eq_zero.mp h2

theorem strAppend_cancel_left {a b c : String} (h : a ++ b = a ++ c) : b = c := by
  apply String.ext
  have h2 := congrArg String.data h
  rw [String.data_append, String.data_append] at h2
  exact List.append_cancel_left h2

theorem strAppend_cancel_right {a b c : String} (h : a ++ c = b ++ c) : a = b := by
  apply String.ext
  have h2 := congrArg String.data h
  rw [String.data_append, String.data_append] at h2
  exact List.append_cancel_right h2

/-! ## Response Merge Policy (utils/responseUtils.ts, mergeResponses) -/

/-- The one-line note appended when DeepSeek's shorter response is dropped. -/
def deepseekOmittedNote : String :=
  "\n\n(DeepSeek provided a shorter response that was not included)"

/-- The one-line note appended when OpenAI's shorter response is dropped. -/
def openaiOmittedNote : String :=
  "\n\n(OpenAI provided a shorter response that was not included)"

/-- The side-by-side combined form produced by the default branch of
`mergeResponses` (the template literal of responseUtils.ts). -/
def combineBoth (openaiResponse deepseekResponse : String) : String :=
  "\n## OpenAI Response\n" ++ openaiResponse ++
  "\n\n## DeepSeek Response\n" ++ deepseekResponse ++
  "\n\n## Combined Analysis\nBoth models have provided insights on this topic. Consider the strengths of each approach when forming your conclusion.\n"

/-- `mergeResponses` from utils/responseUtils.ts.  The JS guard
`openaiLength > deepseekLength * 1.5` is exact on the integer lengths involved
(`n * 1.5` is an exact IEEE value for every string length), hence it is embedded
as `2 * openaiLength > 3 * deepseekLength`.  JS string falsiness is emptiness. -/
def mergeResponses (openaiResponse deepseekResponse : String) : String :=
  if openaiResponse = "" ∧ deepseekResponse = "" then
    "No response from either model."
  else if openaiResponse = "" then deepseekResponse
  else if deepseekResponse = "" then openaiResponse
  else if 2 * openaiResponse.length > 3 * deepseekResponse.length then
    openaiResponse ++ deepseekOmittedNote
  else if 2 * deepseekResponse.length > 3 * openaiResponse.length then
    deepseekResponse ++ openaiOmittedNote
  else
    combineBoth openaiResponse deepseekResponse

/-! ## Provider Client retry/backoff
(services/openaiService.ts and services/deepseekService.ts) -/

/-- Typed failures an underlying provider HTTP attempt can raise. -/
inductive ProviderError where
  | timeout
  | serverError (code : Nat)
  | connectionReset
  | rateLimited
  | validationFailure (code : Nat)
deriving DecidableEq, Repr

/-- Spec-side classification: timeouts, 5xx and connection resets (and the
rate limit) are transient; other 4xx are validation failures. -/
def ProviderError.transient : ProviderError → Bool
  | .timeout => true
  | .serverError _ => true
  | .connectionReset => true
  | .rateLimited => true
  | .validationFailure _ => false

/-- The retry predicate both services pass to `backOff`: it logs a warning and
returns `true` for every error. -/
def retryAlways : ProviderError → Bool := fun _ => true

/-- One run of the `exponential-backoff` package as configured in both
services: `retriesLeft` further attempts are allowed after the current one;
after a failed attempt, if retries remain and the predicate accepts the error,
wait the current delay and retry with the delay multiplied by `timeMultiple`.
`outcomes n` is the result of the n-th underlying HTTP attempt (0-based);
the returned list is the sequence of delays actually waited, so
`delays.length + 1` attempts were made in total. -/
def backOffGo (outcomes : Nat → Except ProviderError α) (pred : ProviderError → Bool)
    (timeMultiple : Nat) : Nat → Nat → Nat → Except ProviderError α × List Nat
  | retriesLeft, idx, delay =>
    match outcomes idx with
    | .ok a => (.ok a, [])
    | .error e =>
      match retriesLeft with
      | 0 => (.error e, [])
      | r + 1 =>
        if pred e then
          let rest := backOffGo outcomes pred timeMultiple r (idx + 1) (delay * timeMultiple)
          (rest.1, delay :: rest.2)
        else (.error e, [])

/-- The `backOff` call inside `getOpenAIResponse` (services/openaiService.ts):
`numOfAttempts: 3, startingDelay: 1000, timeMultiple: 2` and the
always-true retry predicate. -/
def getOpenAIResponseRetries (outcomes : Nat → Except ProviderError String) :
    Except ProviderError String × List Nat :=
  backOffGo outcomes retryAlways 2 2 0 1000

/-- The `backOff` call inside `getDeepSeekResponse` (services/deepseekService.ts):
identical configuration; a successful call additionally reports the consumed
tokens (`response.usage.total_tokens`). -/
def getDeepSeekResponseRetries (outcomes : Nat → Except ProviderError (String × Nat)) :
    Except ProviderError (String × Nat) × List Nat :=
  backOffGo outcomes retryAlways 2 2 0 1000

/-- The delays waited by one configured backoff run form a prefix of
`[1000, 2000]`, and any first-attempt failure whatsoever causes a retry. -/
theorem backOffGo_run_spec (outcomes : Nat → Except ProviderError α) :
    (∃ n, (backOffGo outcomes retryAlways 2 2 0 1000).2 = [1000, 2000].take n) ∧
    (∀ e, outcomes 0 = .error e →
      1 ≤ (backOffGo outcomes retryAlways 2 2 0 1000).2.length) := by
  constructor
  · match h0 : outcomes 0 with
    | .ok a => exact ⟨0, by simp [backOffGo, h0]⟩
    | .error e =>
      match h1 : outcomes 1 with
      | .ok a => exact ⟨1, by simp [backOffGo, h0, h1, retryAlways]⟩
      | .error e1 =>
        match h2 : outcomes 2 with
        | .ok a => exact ⟨2, by simp [backOffGo, h0, h1, h2, retryAlways]⟩
        | .error e2 => exact ⟨2, by simp [backOffGo, h0, h1, h2, retryAlways]⟩
  · intro e h0
    match h1 : outcomes 1 with
    | .ok a => simp [backOffGo, h0, h1, retryAlways]
    | .error e1 =>
      match h2 : outcomes 2 with
      | .ok a => simp [backOffGo, h0, h1, h2, retryAlways]
      | .error e2 => simp [backOffGo, h0, h1, h2, retryAlways]

/-! ## Requests, cache fingerprints, response cache, usage ledger -/

/-- A validated request body as the route handlers read it.  `contextJson` is
the image of `JSON.stringify` applied to the context (or to the empty object
when absent); `temperature` and `maxTokens` carry the template-literal string
images of the numeric fields ("undefined" when absent) — that stringification
is injective on JS numbers. -/
structure Request where
  prompt : String
  contextJson : String
  temperature : String
  maxTokens : String
  modelPreference : Option String
deriving DecidableEq, Repr

/-- Template-literal image of `modelPreference`: `undefined` prints as the
string "undefined". -/
def prefString : Option String → String
  | none => "undefined"
  | some p => p

/-- The cache key computed by routes/ask.ts POST "/" — prompt, context,
temperature and maxTokens only; the model preference is NOT part of the key. -/
def askCacheKey (r : Request) : String :=
  r.prompt ++ "-" ++ r.contextJson ++ "-" ++ r.temperature ++ "-" ++ r.maxTokens

/-- The cache key computed by routes/askRoutes.ts POST "/chat" — it
additionally ends with the model preference. -/
def chatCacheKey (r : Request) : String :=
  r.prompt ++ "-" ++ r.contextJson ++ "-" ++ r.temperature ++ "-" ++ r.maxTokens
    ++ "-" ++ prefString r.modelPreference

/-- The response object built by the route handlers and stored in the cache;
the per-provider raw fields are present only in hybrid mode (`none` embeds an
absent JS field). -/
structure OrchestrationResult where
  response : String
  openaiResponse : Option String
  deepseekResponse : Option String
  modelUsed : String
  processingTime : Nat
deriving DecidableEq, Repr

/-- The two upstream providers. -/
inductive Provider where
  | openai
  | deepseek
deriving DecidableEq, Repr

/-- The response cache as a list of entries (key, absolute expiry instant,
value): node-cache with `stdTTL: 300` lets every entry expire a fixed TTL
after its insertion, independent of later reads. -/
abbrev Cache := List (String × Nat × OrchestrationResult)

/-- `stdTTL: 300` from lib/store.ts (CACHE_TTL=300 in the configuration). -/
def cacheTTL : Nat := 300

/-- Cache lookup: the stored value, unless the entry is absent or expired. -/
def cacheGet (c : Cache) (k : String) (now : Nat) : Option OrchestrationResult :=
  match c.find? (fun e => e.1 == k) with
  | some (_, exp, v) => if now < exp then some v else none
  | none => none

/-- Cache insertion: (re)bind the key, expiring `cacheTTL` after now. -/
def cacheSet (c : Cache) (k : String) (now : Nat) (v : OrchestrationResult) : Cache :=
  (k, now + cacheTTL, v) :: c.filter (fun e => !(e.1 == k))

/-- An append-only usage record written by `trackUsage` in
services/deepseekService.ts; the cost arithmetic is embedded over ℚ. -/
structure UsageRecord where
  userId : String
  model : String
  tokensUsed : Nat
  cost : ℚ
deriving DecidableEq, Repr

/-- `trackUsage` cost for the default chat model deepseek-v3:
`(tokensUsed / 1000) * costPerToken` with `costPerToken = 0.0005`. -/
def deepseekV3Cost (tokens : Nat) : ℚ := (tokens : ℚ) / 1000 * (5 / 10000)

/-- The Usage Ledger writes performed inside `getDeepSeekResponse`: exactly one
record — and a quota increment — when a userId was supplied in the options and
the call succeeded; none otherwise.  `getOpenAIResponse` contains no usage
tracking at all, whatever options it receives. -/
def deepseekLedgerWrites (userId : Option String) :
    Except ProviderError (String × Nat) → List UsageRecord
  | .ok (_, tok) =>
    match userId with
    | some uid => [⟨uid, "deepseek-v3", tok, deepseekV3Cost tok⟩]
    | none => []
  | .error _ => []

/-! ## The synchronous POST "/" handler (routes/ask.ts) -/

/-- What a completed POST "/" call produces: the response object, whether it
was served from the cache, the Provider Clients actually invoked, the Usage
Ledger records written, and the cache afterwards. -/
structure AskOutcome where
  result : OrchestrationResult
  cached : Bool
  invoked : List Provider
  ledgerWrites : List UsageRecord
  cache' : Cache
deriving DecidableEq, Repr

/-- The POST "/" handler of routes/ask.ts.  `oai` and `ds` are the outcomes
the two Provider Clients would produce for this request (deepseek also
reporting its consumed tokens); `elapsed` is the measured processing time.
The handler checks the cache, dispatches on `modelPreference` — "openai",
"deepseek", or the default hybrid branch awaiting both via `Promise.all`
(which fails the whole call on any rejection) — stores the fresh response in
the cache and returns it.  Provider calls on this route carry no userId, so
the deepseek client's ledger writes are those for a `none` userId. -/
def askHandle (r : Request) (now elapsed : Nat) (c : Cache)
    (oai : Except ProviderError String) (ds : Except ProviderError (String × Nat)) :
    Except ProviderError AskOutcome :=
  match cacheGet c (askCacheKey r) now with
  | some v => .ok ⟨v, true, [], [], c⟩
  | none =>
    if r.modelPreference = some "openai" then
      match oai with
      | .error e => .error e
      | .ok t =>
        .ok ⟨⟨t, none, none, "openai", elapsed⟩, false, [.openai], [],
          cacheSet c (askCacheKey r) now ⟨t, none, none, "openai", elapsed⟩⟩
    else if r.modelPreference = some "deepseek" then
      match ds with
      | .error e => .error e
      | .ok (t, _) =>
        .ok ⟨⟨t, none, none, "deepseek", elapsed⟩, false, [.deepseek],
          deepseekLedgerWrites none ds,
          cacheSet c (askCacheKey r) now ⟨t, none, none, "deepseek", elapsed⟩⟩
    else
      match oai, ds with
      | .ok a, .ok (b, _) =>
        .ok ⟨⟨mergeResponses a b, some a, some b, "hybrid", elapsed⟩, false,
          [.openai, .deepseek], deepseekLedgerWrites none ds,
          cacheSet c (askCacheKey r) now ⟨mergeResponses a b, some a, some b, "hybrid", elapsed⟩⟩
      | .error e, _ => .error e
      | .ok _, .error e => .error e

/-- Looking up the key just set yields the stored value for `cacheTTL` time. -/
theorem cacheGet_cacheSet (c : Cache) (k : String) (now t : Nat)
    (v : OrchestrationResult) :
    cacheGet (cacheSet c k now v) k t = if t < now + cacheTTL then some v else none := by
  simp [cacheGet, cacheSet, List.find?]

/-- A fresh (non-cached) successful POST "/" call stores its response under
the request's key. -/
theorem askHandle_fresh_cache (r : Request) (now elapsed : Nat) (c : Cache)
    (oai : Except ProviderError String) (ds : Except ProviderError (String × Nat))
    (out : AskOutcome) (h : askHandle r now elapsed c oai ds = .ok out)
    (hmiss : out.cached = false) :
    out.cache' = cacheSet c (askCacheKey r) now out.result := by
  unfold askHandle at h
  rcases hget : cacheGet c (askCacheKey r) now with _ | v
  · rw [hget] at h
    simp only at h
    split at h
    · rcases hoai : oai with e | t <;> rw [hoai] at h <;> simp at h
      rw [← h]
    · split at h
      · rcases hds : ds with e | ⟨t, k⟩ <;> rw [hds] at h <;> simp at h
        rw [← h]
      · rcases hoai : oai with e | t <;> rcases hds : ds with e2 | ⟨t2, k2⟩ <;>
          rw [hoai, hds] at h <;> simp at h
        rw [← h]
  · rw [hget] at h
    simp only [Except.ok.injEq] at h
    rw [← h] at hmiss
    simp at hmiss

/-! ## The WebSocket chat hybrid branch (services/websocketService.ts) -/

/-- `WebSocketService.mergeResponses` — the simple side-by-side merge used by
the hybrid branch of `handleChatMessage`. -/
def wsMergeResponses (response1 response2 : String) : String :=
  "\n## First AI Response\n" ++ response1 ++
  "\n\n## Second AI Response\n" ++ response2 ++
  "\n\n## Combined Analysis\nBoth AI models have provided insights on this topic. Consider the strengths of each approach when forming your conclusion.\n"

/-- The hybrid branch of `WebSocketService.handleChatMessage`:
`Promise.allSettled` over the DeepSeek call (which carries the user's id, so
it records usage on success) and the OpenAI call (made without options, so it
never records usage).  Returns the response content, the `modelUsed` label and
the Usage Ledger records written; fails only when both providers fail. -/
def wsHybridChat (uid : String) (ds : Except ProviderError (String × Nat))
    (oai : Except ProviderError String) :
    Except String (String × String × List UsageRecord) :=
  match ds, oai with
  | .ok (t, _), .ok u =>
    .ok (wsMergeResponses t u, "hybrid (deepseek + openai)",
      deepseekLedgerWrites (some uid) ds)
  | .ok (t, _), .error _ =>
    .ok (t, "deepseek", deepseekLedgerWrites (some uid) ds)
  | .error _, .ok u => .ok (u, "openai", [])
  | .error _, .error _ => .error "All AI models failed to respond"

/-! ## Usage quota (middleware/authMiddleware.ts, checkQuota) and the
POST "/chat" pipeline (routes/askRoutes.ts) -/

/-- A calendar instant: year, JS month index (0 to 11), and the time within
the month encoded as one Nat whose 0 is the month's first instant (day 1,
00:00).  Instants compare lexicographically, as JS Dates do. -/
structure Instant where
  year : Nat
  month : Nat
  sub : Nat
deriving DecidableEq, Repr

/-- JS `s.startsWith(pre)`, embedded over the character data. -/
def strStartsWith (s pre : String) : Bool :=
  List.isPrefixOf pre.data s.data

/-- The strict comparison `a < b` on instants (JS Date comparison). -/
def Instant.ltb (a b : Instant) : Bool :=
  decide (a.year < b.year) ||
    (decide (a.year = b.year) &&
      (decide (a.month < b.month) ||
        (decide (a.month = b.month) && decide (a.sub < b.sub))))

/-- `new Date(now.getFullYear(), now.getMonth() + 1, 1)`: the first instant of
the calendar month after `now` (JS normalizes month index 12 to January of
the following year). -/
def monthStartAfter (now : Instant) : Instant :=
  if now.month + 1 < 12 then ⟨now.year, now.month + 1, 0⟩ else ⟨now.year + 1, 0, 0⟩

/-- `user.usageQuota` from models/user.ts. -/
structure QuotaState where
  monthly : Nat
  used : Nat
  resetDate : Instant
deriving DecidableEq, Repr

inductive QuotaDecision where
  | allowed
  | exceeded
deriving DecidableEq, Repr

/-- The `checkQuota` middleware: when `now` is strictly past the reset date,
set `used` to 0 and advance the reset date to the start of the next calendar
month; then reject exactly when `used >= monthly`.  Returns the decision and
the (possibly reset) persisted quota state. -/
def checkQuota (now : Instant) (q : QuotaState) : QuotaDecision × QuotaState :=
  if Instant.ltb q.resetDate now then
    if (0 : Nat) ≥ q.monthly then
      (.exceeded, ⟨q.monthly, 0, monthStartAfter now⟩)
    else (.allowed, ⟨q.monthly, 0, monthStartAfter now⟩)
  else
    if q.used ≥ q.monthly then (.exceeded, q) else (.allowed, q)

/-- The shared mutable state the POST "/chat" pipeline touches. -/
structure ChatState where
  cache : Cache
  ledger : List UsageRecord
  quota : QuotaState
deriving DecidableEq, Repr

inductive ChatError where
  | quotaExceeded (q : QuotaState)
  | provider (e : ProviderError)
deriving DecidableEq, Repr

/-- What a completed POST "/chat" call produces. -/
structure ChatOutcome where
  result : OrchestrationResult
  cached : Bool
  invoked : List Provider
  st : ChatState
deriving DecidableEq, Repr

/-- The POST "/chat" pipeline of routes/askRoutes.ts: the `checkQuota`
middleware runs first (its reset is persisted; rejection stops the request
before any cache or provider activity), then the handler checks the cache
(`chatCacheKey`), dispatches on `modelPreference` — "openai", any preference
starting with "deepseek", or the default hybrid branch via `Promise.all` —
and stores the fresh response.  Both provider calls receive the caller's
userId, but only the DeepSeek client records usage (one ledger record and a
quota increment per successful call). -/
def chatRoute (uid : String) (r : Request) (nowI : Instant) (now elapsed : Nat)
    (st : ChatState) (oai : Except ProviderError String)
    (ds : Except ProviderError (String × Nat)) : Except ChatError ChatOutcome :=
  match checkQuota nowI st.quota with
  | (.exceeded, q') => .error (.quotaExceeded q')
  | (.allowed, q') =>
    match cacheGet st.cache (chatCacheKey r) now with
    | some v => .ok ⟨v, true, [], ⟨st.cache, st.ledger, q'⟩⟩
    | none =>
      if r.modelPreference = some "openai" then
        match oai with
        | .error e => .error (.provider e)
        | .ok t =>
          .ok ⟨⟨t, none, none, "openai", elapsed⟩, false, [.openai],
            ⟨cacheSet st.cache (chatCacheKey r) now ⟨t, none, none, "openai", elapsed⟩,
             st.ledger, q'⟩⟩
      else if (match r.modelPreference with
               | some p => strStartsWith p "deepseek"
               | none => false) then
        match ds with
        | .error e => .error (.provider e)
        | .ok (t, tok) =>
          .ok ⟨⟨t, none, none, prefString r.modelPreference, elapsed⟩, false, [.deepseek],
            ⟨cacheSet st.cache (chatCacheKey r) now
               ⟨t, none, none, prefString r.modelPreference, elapsed⟩,
             st.ledger ++ deepseekLedgerWrites (some uid) ds,
             ⟨q'.monthly, q'.used + tok, q'.resetDate⟩⟩⟩
      else
        match oai, ds with
        | .ok a, .ok (b, tok) =>
          .ok ⟨⟨mergeResponses a b, some a, some b, "hybrid", elapsed⟩, false,
            [.openai, .deepseek],
            ⟨cacheSet st.cache (chatCacheKey r) now
               ⟨mergeResponses a b, some a, some b, "hybrid", elapsed⟩,
             st.ledger ++ deepseekLedgerWrites (some uid) ds,
             ⟨q'.monthly, q'.used + tok, q'.resetDate⟩⟩⟩
        | .error e, _ => .error (.provider e)
        | .ok _, .error e => .error (.provider e)

/-! ## Merged streaming (utils/responseUtils.ts, streamMergedResponses) -/

/-- Stream source tag. -/
inductive MSrc where
  | openai
  | deepseek
deriving DecidableEq, Repr

/-- Events arriving from one provider stream: a parsed delta content (the
empty string embeds a chunk whose JSON was invalid or whose delta was empty —
the listener skips it), normal end of stream, or a stream error. -/
inductive InEvt where
  | data (content : String)
  | streamEnd
  | streamError
deriving DecidableEq, Repr

/-- Events written to the outgoing SSE stream.  `streamMergedResponses` has
no failure-writing path: a provider stream error is only logged and marks
that provider done. -/
inductive OutEvt where
  | system (content : String)
  | delta (model : MSrc) (content buffer : String)
  | finalMerge (content : String)
deriving DecidableEq, Repr

/-- The local state of `streamMergedResponses`: the two done flags, the two
running buffers, the events written so far, and whether `res.end()` ran. -/
structure MergeState where
  openaiDone : Bool
  deepseekDone : Bool
  openaiBuffer : String
  deepseekBuffer : String
  out : List OutEvt
  closed : Bool
deriving DecidableEq, Repr

/-- `checkBothDone`: once both streams are done, write the final synthetic
merge event — the merge of the two accumulated buffers — and end the
response. -/
def checkBothDone (s : MergeState) : MergeState :=
  if s.openaiDone && s.deepseekDone then
    { s with
      out := s.out ++ [.finalMerge ("\n\n## Final Merged Response\n" ++
        mergeResponses s.openaiBuffer s.deepseekBuffer)]
      closed := true }
  else s

/-- One arriving stream event, as handled by the listeners of
`streamMergedResponses`: non-empty delta content is appended to its source's
buffer and forwarded tagged with the source and the buffer so far; stream end
and stream error alike mark the source done (the error is only logged) and
run `checkBothDone`.  After `res.end()` no event has any effect (well-formed
event sequences deliver none). -/
def mergeStep (s : MergeState) : MSrc × InEvt → MergeState
  | (src, ev) =>
    if s.closed then s else
    match src, ev with
    | .openai, .data c =>
      if c = "" then s else
        { s with openaiBuffer := s.openaiBuffer ++ c
                 out := s.out ++ [.delta .openai c (s.openaiBuffer ++ c)] }
    | .openai, .streamEnd => checkBothDone { s with openaiDone := true }
    | .openai, .streamError => checkBothDone { s with openaiDone := true }
    | .deepseek, .data c =>
      if c = "" then s else
        { s with deepseekBuffer := s.deepseekBuffer ++ c
                 out := s.out ++ [.delta .deepseek c (s.deepseekBuffer ++ c)] }
    | .deepseek, .streamEnd => checkBothDone { s with deepseekDone := true }
    | .deepseek, .streamError => checkBothDone { s with deepseekDone := true }

/-- The handler state right after the initial header write. -/
def initMergeState : MergeState :=
  ⟨false, false, "", "", [.system "Starting both models in parallel...\n\n"], false⟩

/-- Run the merged-streaming handler from a state over a sequence of
arriving events. -/
def runMergeFrom (s : MergeState) (evts : List (MSrc × InEvt)) : MergeState :=
  evts.foldl mergeStep s

/-- `streamMergedResponses`, as a function of the interleaved sequence of
events the two provider streams deliver. -/
def streamMergedResponses (evts : List (MSrc × InEvt)) : MergeState :=
  runMergeFrom initMergeState evts

/-- Concatenation of a list of delta contents (a provider's final buffer). -/
def strConcat : List String → String
  | [] => ""
  | c :: cs => c ++ strConcat cs

/-- The event sequence one provider stream delivers: its delta chunks in
order, then its terminator. -/
def taggedStream (src : MSrc) (chunks : List String) (term : InEvt) :
    List (MSrc × InEvt) :=
  chunks.map (fun c => (src, .data c)) ++ [(src, term)]

/-- `Interleave l₁ l₂ l`: `l` is an order-preserving interleaving of `l₁`
and `l₂` (the arrival orders of the two concurrent streams). -/
inductive Interleave : List α → List α → List α → Prop where
  | nil : Interleave [] [] []
  | left {l₁ l₂ l : List α} (a : α) : Interleave l₁ l₂ l → Interleave (a :: l₁) l₂ (a :: l)
  | right {l₁ l₂ l : List α} (a : α) : Interleave l₁ l₂ l → Interleave l₁ (a :: l₂) (a :: l)

theorem Interleave.left_nil {l₂ l : List α} (h : Interleave [] l₂ l) : l = l₂ := by
  generalize hl : ([] : List α) = l₁ at h
  induction h with
  | nil => rfl
  | left a h ih => exact absurd hl (by simp)
  | right a h ih => rw [ih hl]

theorem Interleave.right_nil {l₁ l : List α} (h : Interleave l₁ [] l) : l = l₁ := by
  generalize hl : ([] : List α) = l₂ at h
  induction h with
  | nil => rfl
  | left a h ih => rw [ih hl]
  | right a h ih => exact absurd hl (by simp)

/-! ## Request statistics store (lib/store.ts, requestStore) -/

/-- The mutable counters of `requestStore` in lib/store.ts. -/
structure RequestStore where
  totalRequests : Nat
  successfulRequests : Nat
  failedRequests : Nat
deriving DecidableEq, Repr

/-- The initial state of `requestStore` (all counters start at 0). -/
def initRequestStore : RequestStore :=
  { totalRequests := 0, successfulRequests := 0, failedRequests := 0 }

/-- `requestStore.trackRequest(success)` from lib/store.ts. -/
def trackRequest (s : RequestStore) (success : Bool) : RequestStore :=
  { totalRequests := s.totalRequests + 1
    successfulRequests := if success then s.successfulRequests + 1 else s.successfulRequests
    failedRequests := if success then s.failedRequests else s.failedRequests + 1 }

/-- `requestStore.resetStats()` from lib/store.ts. -/
def resetStats (_s : RequestStore) : RequestStore :=
  { totalRequests := 0, successfulRequests := 0, failedRequests := 0 }

/-- The record returned by `requestStore.getStats()`.  The JS number arithmetic
of the success rate is embedded over ℚ. -/
structure Stats where
  total : Nat
  successful : Nat
  failed : Nat
  successRate : ℚ
deriving DecidableEq, Repr

/-- `requestStore.getStats()` from lib/store.ts:
`successRate = total > 0 ? (successful / total) * 100 : 0`. -/
def getStats (s : RequestStore) : Stats :=
  { total := s.totalRequests
    successful := s.successfulRequests
    failed := s.failedRequests
    successRate :=
      if s.totalRequests > 0 then
        ((s.successfulRequests : ℚ) / (s.totalRequests : ℚ)) * 100
      else 0 }

/-- The counter invariant of the statistics store. -/
def StoreInv (s : RequestStore) : Prop :=
  s.totalRequests = s.successfulRequests + s.failedRequests

/-! ## Theorems for claims C5, C9, C10 -/

/-- C5: for non-empty texts, the merge drops the shorter side (with the
corresponding one-line note) exactly when one length exceeds 1.5 times the
other, and otherwise returns the labeled side-by-side combination, which equals
neither input text alone. -/
theorem mergeResponses_length_heuristic (a b : String) (ha : a ≠ "") (hb : b ≠ "") :
    (2 * a.length > 3 * b.length → mergeResponses a b = a ++ deepseekOmittedNote) ∧
    (2 * b.length > 3 * a.length → mergeResponses a b = b ++ openaiOmittedNote) ∧
    (¬ 2 * a.length > 3 * b.length → ¬ 2 * b.length > 3 * a.length →
      mergeResponses a b = combineBoth a b ∧
      mergeResponses a b ≠ a ∧ mergeResponses a b ≠ b) := by
  refine ⟨?_, ?_, ?_⟩
  · intro hgt
    simp [mergeResponses, ha, hb, hgt]
  · intro hgt
    have hnot : ¬ 2 * a.length > 3 * b.length := by omega
    simp [mergeResponses, ha, hb, hgt, hnot]
  · intro h1 h2
    have hc : mergeResponses a b = combineBoth a b := by
      simp [mergeResponses, ha, hb, h1, h2]
    refine ⟨hc, ?_, ?_⟩
    · rw [hc]
      intro hcontra
      have hlen := congrArg String.length hcontra
      have e1 : ("\n## OpenAI Response\n" : String).length = 20 := by decide
      have hb0 : b.length ≠ 0 := fun h => hb (strEmpty_of_length_zero h)
      simp only [combineBoth, strLength_append, e1] at hlen
      omega
    · rw [hc]
      intro hcontra
      have hlen := congrArg String.length hcontra
      have e1 : ("\n## OpenAI Response\n" : String).length = 20 := by decide
      have ha0 : a.length ≠ 0 := fun h => ha (strEmpty_of_length_zero h)
      simp only [combineBoth, strLength_append, e1] at hlen
      omega

/-- Witness for `mergeResponses_length_heuristic` at concrete equal-length inputs. -/
theorem mergeResponses_length_heuristic_witness :
    mergeResponses "four" "4444" = combineBoth "four" "4444" :=
  ((mergeResponses_length_heuristic "four" "4444" (by decide) (by decide)).2.2
    (by decide) (by decide)).1

/-- C9 counterexample: merging two empty texts does not return the empty text;
`mergeResponses "" "" = "No response from either model."`. -/
theorem mergeResponses_empty_empty_not_empty :
    mergeResponses "" "" = "No response from either model." ∧
    mergeResponses "" "" ≠ "" := by
  constructor
  · rfl
  · decide

/-- C9 amended: the merge is an identity on the non-empty side — for non-empty
`t`, merging `t` with the empty text (either way around) returns `t`; merging
two empty texts, however, returns the fixed fallback sentence
"No response from either model.", not the empty text. -/
theorem mergeResponses_empty_side (t : String) (ht : t ≠ "") :
    mergeResponses t "" = t ∧ mergeResponses "" t = t ∧
    mergeResponses "" "" = "No response from either model." := by
  refine ⟨?_, ?_, rfl⟩
  · simp [mergeResponses, ht]
  · simp [mergeResponses, ht]

/-- Witness for `mergeResponses_empty_side` at `t = "hi"`. -/
theorem mergeResponses_empty_side_witness :
    mergeResponses "hi" "" = "hi" :=
  (mergeResponses_empty_side "hi" (by decide)).1

/-- C10: the statistics store satisfies
`totalRequests = successfulRequests + failedRequests` initially, the invariant
is preserved by every `trackRequest` and by `resetStats`, and `getStats`
reports `successRate = 100 * successful / total` when `total > 0` and `0` when
`total = 0`. -/
theorem requestStore_inv_and_successRate :
    StoreInv initRequestStore ∧
    (∀ s success, StoreInv s → StoreInv (trackRequest s success)) ∧
    (∀ s, StoreInv (resetStats s)) ∧
    (∀ s, 0 < s.totalRequests →
      (getStats s).successRate = 100 * (s.successfulRequests : ℚ) / (s.totalRequests : ℚ)) ∧
    (∀ s, s.totalRequests = 0 → (getStats s).successRate = 0) := by
  refine ⟨rfl, ?_, ?_, ?_, ?_⟩
  · intro s success h
    cases success <;> simp [StoreInv, trackRequest] at * <;> omega
  · intro s
    simp [StoreInv, resetStats]
  · intro s hpos
    simp [getStats, hpos]
    ring
  · intro s hz
    simp [getStats, hz]

/-- Witness for `requestStore_inv_and_successRate`: the invariant is preserved
through one tracked request from the initial state. -/
theorem requestStore_inv_and_successRate_witness :
    StoreInv (trackRequest initRequestStore true) :=
  requestStore_inv_and_successRate.2.1 initRequestStore true
    requestStore_inv_and_successRate.1

/-- C6 counterexample: a validation failure (HTTP 400, not a rate limit) on the
first attempt is retried — the run waits 1000 and makes a second attempt —
although the claim says validation failures are not retried. -/
theorem backoff_retries_validation_failure :
    (getOpenAIResponseRetries
        (fun i => if i = 0 then .error (.validationFailure 400) else .ok "ok")).2
      = [1000] ∧
    ProviderError.transient (.validationFailure 400) = false := by
  constructor
  · rfl
  · rfl

/-- C6 amended: every synchronous completion call of both Provider Clients
makes at most 3 attempts, with delays 1000 then 2000 time units (exponential,
doubling, starting at 1000); it retries after any failed non-final attempt —
transient failures AND validation failures alike, since the configured retry
predicate always returns true. -/
theorem provider_retry_policy (oc : Nat → Except ProviderError String)
    (dc : Nat → Except ProviderError (String × Nat)) :
    (∃ n, (getOpenAIResponseRetries oc).2 = [1000, 2000].take n) ∧
    (getOpenAIResponseRetries oc).2.length + 1 ≤ 3 ∧
    (∀ e, oc 0 = .error e → 1 ≤ (getOpenAIResponseRetries oc).2.length) ∧
    (∃ n, (getDeepSeekResponseRetries dc).2 = [1000, 2000].take n) ∧
    (getDeepSeekResponseRetries dc).2.length + 1 ≤ 3 ∧
    (∀ e, dc 0 = .error e → 1 ≤ (getDeepSeekResponseRetries dc).2.length) := by
  obtain ⟨⟨n₁, hn₁⟩, hr₁⟩ := backOffGo_run_spec oc
  obtain ⟨⟨n₂, hn₂⟩, hr₂⟩ := backOffGo_run_spec dc
  refine ⟨⟨n₁, hn₁⟩, ?_, hr₁, ⟨n₂, hn₂⟩, ?_, hr₂⟩
  · have h := List.length_take n₁ [1000, 2000]
    rw [getOpenAIResponseRetries, hn₁]
    simp only [List.length_cons, List.length_nil] at h
    omega
  · have h := List.length_take n₂ [1000, 2000]
    rw [getDeepSeekResponseRetries, hn₂]
    simp only [List.length_cons, List.length_nil] at h
    omega

/-- Witness for `provider_retry_policy`: a first-attempt timeout is retried. -/
theorem provider_retry_policy_witness :
    1 ≤ (getOpenAIResponseRetries
      (fun i => if i = 0 then .error .timeout else .ok "ok")).2.length :=
  (provider_retry_policy
    (fun i => if i = 0 then .error .timeout else .ok "ok")
    (fun _ => .ok ("ok", 1))).2.2.1 .timeout (by simp)

/-! ## Shared concrete requests for witnesses and counterexamples -/

/-- A hybrid-mode request (no model preference given). -/
def reqHybrid : Request := ⟨"What is 2+2", "\x7b\x7d", "0.7", "100", none⟩

/-- The same request restricted to the OpenAI provider. -/
def reqOpenai : Request := ⟨"What is 2+2", "\x7b\x7d", "0.7", "100", some "openai"⟩

/-- The same request restricted to the DeepSeek provider. -/
def reqDeepseek : Request := ⟨"What is 2+2", "\x7b\x7d", "0.7", "100", some "deepseek"⟩

/-! ## Theorems for claims C1 and C2 -/

/-- C1 counterexample: a hybrid-mode synchronous POST "/" call in which OpenAI
fails and DeepSeek succeeds fails as a whole (`Promise.all` rejects): no
partial result is returned and no usage record is written. -/
theorem hybrid_single_failure_fails_sync :
    reqHybrid.modelPreference = none ∧
    askHandle reqHybrid 0 5 [] (.error .timeout) (.ok ("4", 7)) = .error .timeout := by
  constructor
  · rfl
  · rfl

/-- C1 amended: in hybrid mode with exactly one failing provider, the
synchronous POST "/" handler fails with that provider's error (its
`Promise.all` offers no partial result and writes no usage record); only the
WebSocket chat handler (`Promise.allSettled`) proceeds with the survivor,
labelling `modelUsed` with the surviving provider, and it writes exactly one
usage record when DeepSeek is the survivor and none when OpenAI is the
survivor (the WebSocket OpenAI call carries no user id and never records
usage). -/
theorem hybrid_partial_failure (r : Request) (now elapsed : Nat) (c : Cache)
    (uid t u : String) (k : Nat) (e e2 : ProviderError)
    (hpref : r.modelPreference = none ∨ r.modelPreference = some "hybrid")
    (hmiss : cacheGet c (askCacheKey r) now = none) :
    askHandle r now elapsed c (.error e) (.ok (t, k)) = .error e ∧
    askHandle r now elapsed c (.ok u) (.error e2) = .error e2 ∧
    wsHybridChat uid (.error e) (.ok u) = .ok (u, "openai", []) ∧
    wsHybridChat uid (.ok (t, k)) (.error e2) =
      .ok (t, "deepseek", [⟨uid, "deepseek-v3", k, deepseekV3Cost k⟩]) := by
  have h1 : ¬ r.modelPreference = some "openai" := by
    rcases hpref with h | h <;> simp [h]
  have h2 : ¬ r.modelPreference = some "deepseek" := by
    rcases hpref with h | h <;> simp [h]
  refine ⟨?_, ?_, rfl, rfl⟩
  · unfold askHandle
    rw [hmiss]
    simp [h1, h2]
  · unfold askHandle
    rw [hmiss]
    simp [h1, h2]

/-- Witness for `hybrid_partial_failure` at concrete inputs. -/
theorem hybrid_partial_failure_witness :
    askHandle reqHybrid 0 5 [] (.error .timeout) (.ok ("4", 7)) = .error .timeout ∧
    wsHybridChat "u1" (.ok ("4", 7)) (.error .connectionReset) =
      .ok ("4", "deepseek", [⟨"u1", "deepseek-v3", 7, deepseekV3Cost 7⟩]) := by
  have h := hybrid_partial_failure reqHybrid 0 5 [] "u1" "4" "x" 7
    .timeout .connectionReset (Or.inl rfl) rfl
  exact ⟨h.1, h.2.2.2⟩

/-- C2: if a synchronous POST "/" call computes a fresh (non-cached) result,
then any second call with the same cache fingerprint issued within the TTL is
answered from the cache: it returns the stored result with the cache-hit flag
true, invokes zero Provider Clients, writes zero Usage Ledger records, and
leaves the cache unchanged — whatever its own providers would have returned. -/
theorem cache_idempotence (r₁ r₂ : Request) (t₀ t₁ e₀ e₁ : Nat) (c₀ : Cache)
    (o₁ o₂ : Except ProviderError String) (d₁ d₂ : Except ProviderError (String × Nat))
    (out₁ : AskOutcome)
    (h₁ : askHandle r₁ t₀ e₀ c₀ o₁ d₁ = .ok out₁)
    (hfresh : out₁.cached = false)
    (hkey : askCacheKey r₂ = askCacheKey r₁)
    (httl : t₁ < t₀ + cacheTTL) :
    askHandle r₂ t₁ e₁ out₁.cache' o₂ d₂ =
      .ok ⟨out₁.result, true, [], [], out₁.cache'⟩ := by
  have hc := askHandle_fresh_cache r₁ t₀ e₀ c₀ o₁ d₁ out₁ h₁ hfresh
  unfold askHandle
  rw [hkey, hc, cacheGet_cacheSet, if_pos httl]

/-- Witness for `cache_idempotence` at concrete inputs. -/
theorem cache_idempotence_witness :
    askHandle reqOpenai 100 7
      (cacheSet [] (askCacheKey reqOpenai) 0 ⟨"four", none, none, "openai", 5⟩)
      (.error .timeout) (.error .timeout) =
    .ok ⟨⟨"four", none, none, "openai", 5⟩, true, [], [],
      cacheSet [] (askCacheKey reqOpenai) 0 ⟨"four", none, none, "openai", 5⟩⟩ :=
  cache_idempotence reqOpenai reqOpenai 0 100 5 7 [] (.ok "four") (.error .timeout)
    (.ok ("4", 3)) (.error .timeout)
    ⟨⟨"four", none, none, "openai", 5⟩, false, [.openai], [],
      cacheSet [] (askCacheKey reqOpenai) 0 ⟨"four", none, none, "openai", 5⟩⟩
    rfl rfl rfl (by decide)

/-! ## Theorems for claims C7 and C8 -/

/-- C7 counterexample: the POST "/" cache key omits the model preference, so a
request that names only OpenAI is served the cached result of an earlier
hybrid request — a result whose `modelUsed` is "hybrid" and which carries
DeepSeek-attributed data. -/
theorem single_provider_pref_cache_leak :
    reqOpenai.modelPreference = some "openai" ∧
    askHandle reqHybrid 0 5 [] (.ok "four") (.ok ("4", 3)) =
      .ok ⟨⟨mergeResponses "four" "4", some "four", some "4", "hybrid", 5⟩, false,
        [.openai, .deepseek], [],
        cacheSet [] (askCacheKey reqHybrid) 0
          ⟨mergeResponses "four" "4", some "four", some "4", "hybrid", 5⟩⟩ ∧
    ((askHandle reqOpenai 10 5
        (cacheSet [] (askCacheKey reqHybrid) 0
          ⟨mergeResponses "four" "4", some "four", some "4", "hybrid", 5⟩)
        (.ok "four") (.ok ("4", 3))).toOption.map
      (fun o => (o.result.modelUsed, o.result.deepseekResponse, o.cached))) =
      some ("hybrid", some "4", true) := by
  refine ⟨rfl, rfl, ?_⟩
  rfl

/-- C7 amended: on a cache miss, a request naming a single provider invokes
exactly that Provider Client and its result carries no data attributed to the
other provider; however, the POST "/" cache key ignores the provider
preference entirely, so a result cached for one preference is returned
unchanged for a request with any other preference (and may then contain the
other provider's data, as the counterexample shows). -/
theorem single_provider_dispatch (r : Request) (now elapsed : Nat) (c : Cache)
    (oai : Except ProviderError String) (ds : Except ProviderError (String × Nat))
    (hmiss : cacheGet c (askCacheKey r) now = none) :
    (∀ t, r.modelPreference = some "openai" → oai = .ok t →
      askHandle r now elapsed c oai ds =
        .ok ⟨⟨t, none, none, "openai", elapsed⟩, false, [.openai], [],
          cacheSet c (askCacheKey r) now ⟨t, none, none, "openai", elapsed⟩⟩) ∧
    (∀ t k, r.modelPreference = some "deepseek" → ds = .ok (t, k) →
      askHandle r now elapsed c oai ds =
        .ok ⟨⟨t, none, none, "deepseek", elapsed⟩, false, [.deepseek], [],
          cacheSet c (askCacheKey r) now ⟨t, none, none, "deepseek", elapsed⟩⟩) ∧
    (∀ p q, askCacheKey { r with modelPreference := p } =
      askCacheKey { r with modelPreference := q }) := by
  refine ⟨?_, ?_, fun p q => rfl⟩
  · intro t hp hoai
    unfold askHandle
    rw [hmiss, hp, hoai]
    simp
  · intro t k hp hds
    unfold askHandle
    rw [hmiss, hp, hds]
    simp [deepseekLedgerWrites]

/-- Witness for `single_provider_dispatch` at concrete inputs. -/
theorem single_provider_dispatch_witness :
    askHandle reqOpenai 0 5 [] (.ok "four") (.error .timeout) =
      .ok ⟨⟨"four", none, none, "openai", 5⟩, false, [.openai], [],
        cacheSet [] (askCacheKey reqOpenai) 0 ⟨"four", none, none, "openai", 5⟩⟩ :=
  (single_provider_dispatch reqOpenai 0 5 [] (.ok "four") (.error .timeout) rfl).1
    "four" rfl rfl

/-- C8 counterexample: two requests that agree on prompt, context, temperature
and max-tokens but differ in provider preference map to the SAME POST "/"
cache key. -/
theorem cache_key_preference_collision :
    reqHybrid.prompt = reqOpenai.prompt ∧
    reqHybrid.contextJson = reqOpenai.contextJson ∧
    reqHybrid.temperature = reqOpenai.temperature ∧
    reqHybrid.maxTokens = reqOpenai.maxTokens ∧
    reqHybrid.modelPreference ≠ reqOpenai.modelPreference ∧
    askCacheKey reqHybrid = askCacheKey reqOpenai := by
  refine ⟨rfl, rfl, rfl, rfl, ?_, rfl⟩
  decide

/-- The preferences `validateRequest` lets through. -/
def ValidPref (p : Option String) : Prop :=
  p = none ∨ p = some "openai" ∨ p = some "deepseek" ∨ p = some "hybrid"

/-- C8 amended: the POST "/chat" cache key is a deterministic function of the
five components (prompt, context, temperature, max-tokens, preference), and
two requests differing in exactly one component — including in a (valid)
provider preference alone — map to different keys; the POST "/" key, however,
ignores the provider preference, so there preference-only differences
collide. -/
theorem chat_cache_key_components (r₁ r₂ : Request) :
    (r₁.prompt = r₂.prompt → r₁.contextJson = r₂.contextJson →
     r₁.temperature = r₂.temperature → r₁.maxTokens = r₂.maxTokens →
     r₁.modelPreference = r₂.modelPreference →
     chatCacheKey r₁ = chatCacheKey r₂) ∧
    (r₁.prompt ≠ r₂.prompt → r₁.contextJson = r₂.contextJson →
     r₁.temperature = r₂.temperature → r₁.maxTokens = r₂.maxTokens →
     r₁.modelPreference = r₂.modelPreference →
     chatCacheKey r₁ ≠ chatCacheKey r₂) ∧
    (r₁.prompt = r₂.prompt → r₁.contextJson ≠ r₂.contextJson →
     r₁.temperature = r₂.temperature → r₁.maxTokens = r₂.maxTokens →
     r₁.modelPreference = r₂.modelPreference →
     chatCacheKey r₁ ≠ chatCacheKey r₂) ∧
    (r₁.prompt = r₂.prompt → r₁.contextJson = r₂.contextJson →
     r₁.temperature ≠ r₂.temperature → r₁.maxTokens = r₂.maxTokens →
     r₁.modelPreference = r₂.modelPreference →
     chatCacheKey r₁ ≠ chatCacheKey r₂) ∧
    (r₁.prompt = r₂.prompt → r₁.contextJson = r₂.contextJson →
     r₁.temperature = r₂.temperature → r₁.maxTokens ≠ r₂.maxTokens →
     r₁.modelPreference = r₂.modelPreference →
     chatCacheKey r₁ ≠ chatCacheKey r₂) ∧
    (r₁.prompt = r₂.prompt → r₁.contextJson = r₂.contextJson →
     r₁.temperature = r₂.temperature → r₁.maxTokens = r₂.maxTokens →
     r₁.modelPreference ≠ r₂.modelPreference →
     ValidPref r₁.modelPreference → ValidPref r₂.modelPreference →
     chatCacheKey r₁ ≠ chatCacheKey r₂) ∧
    (askCacheKey r₁ = askCacheKey { r₁ with modelPreference := r₂.modelPreference }) := by
  refine ⟨?_, ?_, ?_, ?_, ?_, ?_, rfl⟩
  · intro h1 h2 h3 h4 h5
    simp only [chatCacheKey, h1, h2, h3, h4, h5]
  · intro hne h2 h3 h4 h5 h
    have hd := congrArg String.data h
    simp only [chatCacheKey, String.data_append, List.append_assoc, h2, h3, h4, h5] at hd
    exact hne (String.ext (List.append_cancel_right hd))
  · intro h1 hne h3 h4 h5 h
    have hd := congrArg String.data h
    simp only [chatCacheKey, String.data_append, List.append_assoc, h1, h3, h4, h5] at hd
    have h6 := List.append_cancel_left (List.append_cancel_left hd)
    exact hne (String.ext (List.append_cancel_right h6))
  · intro h1 h2 hne h4 h5 h
    have hd := congrArg String.data h
    simp only [chatCacheKey, String.data_append, List.append_assoc, h1, h2, h4, h5] at hd
    have h6 := List.append_cancel_left <| List.append_cancel_left <|
      List.append_cancel_left <| List.append_cancel_left hd
    exact hne (String.ext (List.append_cancel_right h6))
  · intro h1 h2 h3 hne h5 h
    have hd := congrArg String.data h
    simp only [chatCacheKey, String.data_append, List.append_assoc, h1, h2, h3, h5] at hd
    have h6 := List.append_cancel_left <| List.append_cancel_left <|
      List.append_cancel_left <| List.append_cancel_left <|
      List.append_cancel_left <| List.append_cancel_left hd
    exact hne (String.ext (List.append_cancel_right h6))
  · intro h1 h2 h3 h4 hne hv₁ hv₂ h
    have hd := congrArg String.data h
    simp only [chatCacheKey, String.data_append, List.append_assoc, h1, h2, h3, h4] at hd
    have h6 := List.append_cancel_left <| List.append_cancel_left <|
      List.append_cancel_left <| List.append_cancel_left <|
      List.append_cancel_left <| List.append_cancel_left <|
      List.append_cancel_left <| List.append_cancel_left hd
    have hpf : prefString r₁.modelPreference = prefString r₂.modelPreference :=
      String.ext h6
    rcases hv₁ with hp₁ | hp₁ | hp₁ | hp₁ <;> rcases hv₂ with hp₂ | hp₂ | hp₂ | hp₂ <;>
      rw [hp₁, hp₂] at hne hpf <;>
      first
        | exact hne rfl
        | exact absurd hpf (by decide)

/-- Witness for `chat_cache_key_components`: preference-only difference
separates the POST "/chat" keys of the shared concrete requests. -/
theorem chat_cache_key_components_witness :
    chatCacheKey reqHybrid ≠ chatCacheKey reqOpenai :=
  (chat_cache_key_components reqHybrid reqOpenai).2.2.2.2.2.1
    rfl rfl rfl rfl (by decide) (Or.inl rfl) (Or.inr (Or.inl rfl))

/-! ## Theorems for claim C3 -/

/-- A quota state one token below its allowance, with a far-future reset. -/
def quotaNearLimit : QuotaState := ⟨100, 99, ⟨2100, 0, 0⟩⟩

/-- C3 counterexample: with allowance 100 and 99 tokens used, a call consuming
50 tokens satisfies used + T > allowance, yet the quota check lets it through
(it only compares used against the allowance): the provider IS invoked and
usage rises to 149. -/
theorem quota_overrun_allowed :
    99 + 50 > 100 ∧
    ((chatRoute "u1" reqDeepseek ⟨2025, 9, 0⟩ 0 5 ⟨[], [], quotaNearLimit⟩
        (.error .timeout) (.ok ("4", 50))).toOption.map
      (fun o => (o.invoked, o.st.quota.used))) = some ([Provider.deepseek], 149) := by
  constructor
  · decide
  · decide

/-- C3 amended: when the current instant is strictly past the reset instant,
the quota check resets `used` to 0 and advances the reset instant to the
first instant of the next calendar month (otherwise the state is untouched);
it then rejects with QuotaExceeded — before any cache lookup or provider
invocation — exactly when the post-reset `used` is at least the allowance.
The tokens the current call would consume play no role, so a call with
`used < allowance` but `used + T > allowance` is allowed through. -/
theorem quota_check_reset_and_threshold :
    (∀ now q, Instant.ltb q.resetDate now = true →
      (checkQuota now q).2.used = 0 ∧
      (checkQuota now q).2.resetDate = monthStartAfter now ∧
      (checkQuota now q).2.monthly = q.monthly) ∧
    (∀ now q, Instant.ltb q.resetDate now = false → (checkQuota now q).2 = q) ∧
    (∀ now q, (checkQuota now q).1 = .exceeded ↔
      (checkQuota now q).2.monthly ≤ (checkQuota now q).2.used) ∧
    (∀ uid r nowI now elapsed st oai ds q',
      checkQuota nowI st.quota = (.exceeded, q') →
      chatRoute uid r nowI now elapsed st oai ds = .error (.quotaExceeded q')) := by
  refine ⟨?_, ?_, ?_, ?_⟩
  · intro now q h
    simp only [checkQuota, h, if_true]
    split <;> simp
  · intro now q h
    simp only [checkQuota, h, Bool.false_eq_true, if_false]
    split <;> simp
  · intro now q
    unfold checkQuota
    split
    · split
      · simpa using by omega
      · simpa using by omega
    · split
      · simpa using by omega
      · simpa using by omega
  · intro uid r nowI now elapsed st oai ds q' h
    unfold chatRoute
    rw [h]

/-- Witness for `quota_check_reset_and_threshold`: an exhausted quota is
rejected before any provider runs. -/
theorem quota_check_reset_and_threshold_witness :
    chatRoute "u1" reqDeepseek ⟨2025, 9, 0⟩ 0 5 ⟨[], [], ⟨100, 100, ⟨2100, 0, 0⟩⟩⟩
      (.ok "four") (.ok ("4", 3)) =
    .error (.quotaExceeded ⟨100, 100, ⟨2100, 0, 0⟩⟩) :=
  quota_check_reset_and_threshold.2.2.2 "u1" reqDeepseek ⟨2025, 9, 0⟩ 0 5
    ⟨[], [], ⟨100, 100, ⟨2100, 0, 0⟩⟩⟩ (.ok "four") (.ok ("4", 3))
    ⟨100, 100, ⟨2100, 0, 0⟩⟩ (by decide)

/-! ## Run lemmas for the merged stream -/

/-- Once OpenAI is done and only DeepSeek's remaining events arrive, the run
forwards DeepSeek's non-empty deltas and ends with the final merge of the two
accumulated buffers. -/
theorem runMergeFrom_deepseek_tail (dCs : List String) (s : MergeState)
    (hc : s.closed = false) (ho : s.openaiDone = true) (hd : s.deepseekDone = false) :
    ∃ mid, runMergeFrom s (taggedStream .deepseek dCs .streamError) =
      { openaiDone := true, deepseekDone := true,
        openaiBuffer := s.openaiBuffer,
        deepseekBuffer := s.deepseekBuffer ++ strConcat dCs,
        out := s.out ++ mid ++ [.finalMerge ("\n\n## Final Merged Response\n" ++
          mergeResponses s.openaiBuffer (s.deepseekBuffer ++ strConcat dCs))],
        closed := true } := by
  induction dCs generalizing s with
  | nil =>
    refine ⟨[], ?_⟩
    simp [taggedStream, runMergeFrom, mergeStep, checkBothDone, hc, ho, strConcat,
      String.append_empty]
  | cons c cs ih =>
    have hstep : runMergeFrom s (taggedStream .deepseek (c :: cs) .streamError) =
        runMergeFrom (mergeStep s (.deepseek, .data c)) (taggedStream .deepseek cs .streamError) := by
      simp [taggedStream, runMergeFrom]
    by_cases hcc : c = ""
    · subst hcc
      have hskip : mergeStep s (.deepseek, .data "") = s := by
        simp [mergeStep, hc]
      obtain ⟨mid, hm⟩ := ih s hc ho hd
      refine ⟨mid, ?_⟩
      rw [hstep, hskip, hm]
      simp [strConcat, String.empty_append]
    · have hwrite : mergeStep s (.deepseek, .data c) =
          { s with deepseekBuffer := s.deepseekBuffer ++ c
                   out := s.out ++ [.delta .deepseek c (s.deepseekBuffer ++ c)] } := by
        simp [mergeStep, hc, hcc]
      obtain ⟨mid, hm⟩ := ih
        { s with deepseekBuffer := s.deepseekBuffer ++ c
                 out := s.out ++ [.delta .deepseek c (s.deepseekBuffer ++ c)] } hc ho hd
      refine ⟨.delta .deepseek c (s.deepseekBuffer ++ c) :: mid, ?_⟩
      rw [hstep, hwrite, hm]
      simp [strConcat, String.append_assoc, List.append_assoc]

/-- The symmetric lemma: DeepSeek done, only OpenAI's remaining events. -/
theorem runMergeFrom_openai_tail (oCs : List String) (s : MergeState)
    (hc : s.closed = false) (ho : s.openaiDone = false) (hd : s.deepseekDone = true) :
    ∃ mid, runMergeFrom s (taggedStream .openai oCs .streamError) =
      { openaiDone := true, deepseekDone := true,
        openaiBuffer := s.openaiBuffer ++ strConcat oCs,
        deepseekBuffer := s.deepseekBuffer,
        out := s.out ++ mid ++ [.finalMerge ("\n\n## Final Merged Response\n" ++
          mergeResponses (s.openaiBuffer ++ strConcat oCs) s.deepseekBuffer)],
        closed := true } := by
  induction oCs generalizing s with
  | nil =>
    refine ⟨[], ?_⟩
    simp [taggedStream, runMergeFrom, mergeStep, checkBothDone, hc, hd, strConcat,
      String.append_empty]
  | cons c cs ih =>
    have hstep : runMergeFrom s (taggedStream .openai (c :: cs) .streamError) =
        runMergeFrom (mergeStep s (.openai, .data c)) (taggedStream .openai cs .streamError) := by
      simp [taggedStream, runMergeFrom]
    by_cases hcc : c = ""
    · subst hcc
      have hskip : mergeStep s (.openai, .data "") = s := by
        simp [mergeStep, hc]
      obtain ⟨mid, hm⟩ := ih s hc ho hd
      refine ⟨mid, ?_⟩
      rw [hstep, hskip, hm]
      simp [strConcat, String.empty_append]
    · have hwrite : mergeStep s (.openai, .data c) =
          { s with openaiBuffer := s.openaiBuffer ++ c
                   out := s.out ++ [.delta .openai c (s.openaiBuffer ++ c)] } := by
        simp [mergeStep, hc, hcc]
      obtain ⟨mid, hm⟩ := ih
        { s with openaiBuffer := s.openaiBuffer ++ c
                 out := s.out ++ [.delta .openai c (s.openaiBuffer ++ c)] } hc ho hd
      refine ⟨.delta .openai c (s.openaiBuffer ++ c) :: mid, ?_⟩
      rw [hstep, hwrite, hm]
      simp [strConcat, String.append_assoc, List.append_assoc]

/-- Master run lemma: over any interleaving of the two streams, when both
streams terminate with an error, the run still ends closed with the final
synthetic merge of the two full buffers as its last written event. -/
theorem runMergeFrom_both_fail {l₁ l₂ evts : List (MSrc × InEvt)}
    (h : Interleave l₁ l₂ evts) :
    ∀ (oCs dCs : List String) (s : MergeState),
      l₁ = taggedStream .openai oCs .streamError →
      l₂ = taggedStream .deepseek dCs .streamError →
      s.closed = false → s.openaiDone = false → s.deepseekDone = false →
      ∃ mid, runMergeFrom s evts =
        { openaiDone := true, deepseekDone := true,
          openaiBuffer := s.openaiBuffer ++ strConcat oCs,
          deepseekBuffer := s.deepseekBuffer ++ strConcat dCs,
          out := s.out ++ mid ++ [.finalMerge ("\n\n## Final Merged Response\n" ++
            mergeResponses (s.openaiBuffer ++ strConcat oCs)
              (s.deepseekBuffer ++ strConcat dCs))],
          closed := true } := by
  induction h with
  | nil =>
    intro oCs dCs s h₁ h₂ hc ho hd
    exact absurd h₁ (by simp [taggedStream])
  | left a h ih =>
    intro oCs dCs s h₁ h₂ hc ho hd
    cases oCs with
    | nil =>
      simp only [taggedStream, List.map_nil, List.nil_append, List.cons.injEq] at h₁
      obtain ⟨ha, hnil⟩ := h₁
      subst ha hnil
      have hl := h.left_nil
      subst hl
      subst h₂
      have hstep : mergeStep s (.openai, .streamError) = { s with openaiDone := true } := by
        simp [mergeStep, hc, checkBothDone, hd]
      obtain ⟨mid, hm⟩ := runMergeFrom_deepseek_tail dCs { s with openaiDone := true }
        hc rfl hd
      refine ⟨mid, ?_⟩
      rw [show runMergeFrom s ((MSrc.openai, InEvt.streamError) :: taggedStream .deepseek dCs .streamError) =
        runMergeFrom (mergeStep s (.openai, .streamError)) (taggedStream .deepseek dCs .streamError) from rfl]
      rw [hstep, hm]
      simp [strConcat, String.append_empty]
    | cons c oCs₂ =>
      simp only [taggedStream, List.map_cons, List.cons_append, List.cons.injEq] at h₁
      obtain ⟨ha, htail⟩ := h₁
      subst ha
      by_cases hcc : c = ""
      · subst hcc
        have hskip : mergeStep s (.openai, .data "") = s := by
          simp [mergeStep, hc]
        obtain ⟨mid, hm⟩ := ih oCs₂ dCs s htail h₂ hc ho hd
        refine ⟨mid, ?_⟩
        rw [show runMergeFrom s ((MSrc.openai, InEvt.data "") :: _) =
          runMergeFrom (mergeStep s (.openai, .data "")) _ from rfl]
        rw [hskip, hm]
        simp [strConcat, String.empty_append]
      · have hwrite : mergeStep s (.openai, .data c) =
            { s with openaiBuffer := s.openaiBuffer ++ c
                     out := s.out ++ [.delta .openai c (s.openaiBuffer ++ c)] } := by
          simp [mergeStep, hc, hcc]
        obtain ⟨mid, hm⟩ := ih oCs₂ dCs
          { s with openaiBuffer := s.openaiBuffer ++ c
                   out := s.out ++ [.delta .openai c (s.openaiBuffer ++ c)] }
          htail h₂ hc ho hd
        refine ⟨.delta .openai c (s.openaiBuffer ++ c) :: mid, ?_⟩
        rw [show runMergeFrom s ((MSrc.openai, InEvt.data c) :: _) =
          runMergeFrom (mergeStep s (.openai, .data c)) _ from rfl]
        rw [hwrite, hm]
        simp [strConcat, String.append_assoc, List.append_assoc]
  | right a h ih =>
    intro oCs dCs s h₁ h₂ hc ho hd
    cases dCs with
    | nil =>
      simp only [taggedStream, List.map_nil, List.nil_append, List.cons.injEq] at h₂
      obtain ⟨ha, hnil⟩ := h₂
      subst ha hnil
      have hl := h.right_nil
      subst hl
      subst h₁
      have hstep : mergeStep s (.deepseek, .streamError) = { s with deepseekDone := true } := by
        simp [mergeStep, hc, checkBothDone, ho]
      obtain ⟨mid, hm⟩ := runMergeFrom_openai_tail oCs { s with deepseekDone := true }
        hc ho rfl
      refine ⟨mid, ?_⟩
      rw [show runMergeFrom s ((MSrc.deepseek, InEvt.streamError) :: taggedStream .openai oCs .streamError) =
        runMergeFrom (mergeStep s (.deepseek, .streamError)) (taggedStream .openai oCs .streamError) from rfl]
      rw [hstep, hm]
      simp [strConcat, String.append_empty]
    | cons c dCs₂ =>
      simp only [taggedStream, List.map_cons, List.cons_append, List.cons.injEq] at h₂
      obtain ⟨ha, htail⟩ := h₂
      subst ha
      by_cases hcc : c = ""
      · subst hcc
        have hskip : mergeStep s (.deepseek, .data "") = s := by
          simp [mergeStep, hc]
        obtain ⟨mid, hm⟩ := ih oCs dCs₂ s h₁ htail hc ho hd
        refine ⟨mid, ?_⟩
        rw [show runMergeFrom s ((MSrc.deepseek, InEvt.data "") :: _) =
          runMergeFrom (mergeStep s (.deepseek, .data "")) _ from rfl]
        rw [hskip, hm]
        simp [strConcat, String.empty_append]
      · have hwrite : mergeStep s (.deepseek, .data c) =
            { s with deepseekBuffer := s.deepseekBuffer ++ c
                     out := s.out ++ [.delta .deepseek c (s.deepseekBuffer ++ c)] } := by
          simp [mergeStep, hc, hcc]
        obtain ⟨mid, hm⟩ := ih oCs dCs₂
          { s with deepseekBuffer := s.deepseekBuffer ++ c
                   out := s.out ++ [.delta .deepseek c (s.deepseekBuffer ++ c)] }
          h₁ htail hc ho hd
        refine ⟨.delta .deepseek c (s.deepseekBuffer ++ c) :: mid, ?_⟩
        rw [show runMergeFrom s ((MSrc.deepseek, InEvt.data c) :: _) =
          runMergeFrom (mergeStep s (.deepseek, .data c)) _ from rfl]
        rw [hwrite, hm]
        simp [strConcat, String.append_assoc, List.append_assoc]

/-! ## Theorems for claim C4 -/

/-- C4 counterexample: when both provider streams fail immediately, the
outgoing stream still ends with the final synthetic merge event (built by
`mergeResponses` from the two empty buffers) and no failure event: the full
output is the header followed by that final merge event. -/
theorem both_fail_emits_final_merge :
    streamMergedResponses
        [(MSrc.openai, InEvt.streamError), (MSrc.deepseek, InEvt.streamError)] =
      ⟨true, true, "", "",
        [.system "Starting both models in parallel...\n\n",
         .finalMerge "\n\n## Final Merged Response\nNo response from either model."],
        true⟩ := by
  rfl

/-- C4 amended: over every interleaving of the two provider streams in which
both streams fail, the outgoing stream does NOT end with an orchestration
failure — it still ends, closed, with exactly one final synthetic merge event
applying the final merge to the two accumulated buffers (the fixed fallback
sentence when nothing was buffered); the handler has no failure-emitting
path at all. -/
theorem both_streams_fail_final_merge (oCs dCs : List String)
    (evts : List (MSrc × InEvt))
    (h : Interleave (taggedStream .openai oCs .streamError)
      (taggedStream .deepseek dCs .streamError) evts) :
    ∃ mid, streamMergedResponses evts =
      ⟨true, true, strConcat oCs, strConcat dCs,
        .system "Starting both models in parallel...\n\n" ::
          (mid ++ [.finalMerge ("\n\n## Final Merged Response\n" ++
            mergeResponses (strConcat oCs) (strConcat dCs))]),
        true⟩ := by
  obtain ⟨mid, hm⟩ := runMergeFrom_both_fail h oCs dCs initMergeState rfl rfl rfl rfl rfl
  refine ⟨mid, ?_⟩
  rw [streamMergedResponses, hm]
  simp [initMergeState, String.empty_append]

/-- Witness for `both_streams_fail_final_merge` on the two-event interleaving
in which both streams fail at once. -/
theorem both_streams_fail_final_merge_witness :
    ∃ mid, streamMergedResponses
        [(MSrc.openai, InEvt.streamError), (MSrc.deepseek, InEvt.streamError)] =
      ⟨true, true, strConcat [], strConcat [],
        .system "Starting both models in parallel...\n\n" ::
          (mid ++ [.finalMerge ("\n\n## Final Merged Response\n" ++
            mergeResponses (strConcat []) (strConcat []))]),
        true⟩ :=
  both_streams_fail_final_merge [] []
    [(MSrc.openai, InEvt.streamError), (MSrc.deepseek, InEvt.streamError)]
    (Interleave.left _ (Interleave.right _ Interleave.nil))

end Deepthink
